import Mathlib

/-!
Shallow embedding of the `sync-map` repository (src/entry.rs, src/map.rs):
a two-tier concurrent map with an atomically published read-only snapshot,
a lock-protected dirty overlay and a miss counter.

The embedding is sequential: atomics and the mutex collapse to plain state,
and each operation is a pure function on the state.  A Rust path that
panics (an `unwrap` on `None`, or `unreachable!`) is modelled by an
`Option`-valued result where `none` is the panic.
-/

/-- `EntryState<V>` from src/entry.rs: `Present` holds the (never null)
value pointer, `SoftDelete` is the soft tombstone, `HardDelete` is the
expunged tombstone. -/
inductive EntryState (V : Type) where
  | Present (v : V)
  | SoftDelete
  | HardDelete
deriving DecidableEq, Repr

/-- `Entry<V>` from src/entry.rs: the container of the value. -/
structure Entry (V : Type) where
  state : EntryState V
deriving DecidableEq, Repr

namespace Entry

/-- `Entry::new`: constructs a Live (`Present`) entry owning `val`. -/
def new (val : V) : Entry V :=
  { state := EntryState.Present val }

/-- `Entry::new_null_entry`: constructs a `HardDelete` (expunged) entry. -/
def new_null_entry : Entry V :=
  { state := EntryState.HardDelete }

/-- `Entry::load`: returns the value if `Present`, `None` on either
tombstone. -/
def load (e : Entry V) : Option V :=
  match e.state with
  | EntryState.Present v => some v
  | EntryState.SoftDelete => none
  | EntryState.HardDelete => none

/-- `Entry::try_swap`: on `Present` the CAS loop installs `val` and hands
back the old value; on `SoftDelete` or `HardDelete` the entry is left
unchanged and the input value itself is handed back.  Sequentially the CAS
succeeds on the first iteration.  Result: (entry after, returned value). -/
def try_swap (e : Entry V) (val : V) : Entry V × Option V :=
  match e.state with
  | EntryState.Present old => ({ state := EntryState.Present val }, some old)
  | EntryState.SoftDelete => (e, some val)
  | EntryState.HardDelete => (e, some val)

/-- `Entry::unexpunge_locked`: `HardDelete` becomes `SoftDelete` and the
call reports `true`; otherwise the entry is unchanged and it reports
`false`.  Result: (entry after, returned bool). -/
def unexpunge_locked (e : Entry V) : Entry V × Bool :=
  match e.state with
  | EntryState.Present _ => (e, false)
  | EntryState.SoftDelete => (e, false)
  | EntryState.HardDelete => ({ state := EntryState.SoftDelete }, true)

/-- `Entry::swap_locked`: unconditionally installs `val`.  `Present` swaps
and returns the old value, `SoftDelete` becomes `Present` returning
`None`; on `HardDelete` the source hits `unreachable!` and panics, which
the outer `none` models.  Result: some (entry after, returned value). -/
def swap_locked (e : Entry V) (val : V) : Option (Entry V × Option V) :=
  match e.state with
  | EntryState.Present old => some ({ state := EntryState.Present val }, some old)
  | EntryState.SoftDelete => some ({ state := EntryState.Present val }, none)
  | EntryState.HardDelete => none

end Entry

/-- `type Map<K, V> = HashMap<K, Rc<Entry<V>>>` from src/map.rs, modelled
as an association list of key/entry pairs. -/
abbrev SMap (K V : Type) := List (K × Entry V)

/-- `HashMap::get` on the association-list model. -/
def SMap.get [DecidableEq K] (m : SMap K V) (k : K) : Option (Entry V) :=
  (m.find? (fun p => p.1 = k)).map (fun p => p.2)

/-- `ReadOnly<K, V>` from src/map.rs: the published snapshot, an inner map
plus the `amended` flag. -/
structure ReadOnly (K V : Type) where
  m : SMap K V
  amended : Bool
deriving DecidableEq, Repr

/-- `SyncMap<K, V>` from src/map.rs.  `read` is the `AtomicPtr` to the
current `ReadOnly` (`none` models the null pointer), `dirty` the
lock-protected optional dirty overlay, `misses` the atomic miss
counter. -/
structure SyncMap (K V : Type) where
  read : Option (ReadOnly K V)
  dirty : Option (SMap K V)
  misses : Nat
deriving DecidableEq, Repr

namespace SyncMap

variable {K V : Type} [DecidableEq K]

/-- `SyncMap::new`: null read pointer, `dirty` initialised to
`Some(HashMap::new())`, `misses` zero. -/
def new : SyncMap K V :=
  { read := none, dirty := some [], misses := 0 }

/-- `SyncMap::load_dirty_locked`: re-resolves the key under the lock.
The source unwraps the guarded `Option` (`guard.as_ref().unwrap()`),
panicking if the dirty overlay is `None`; the outer `none` models that
panic.  Otherwise it returns `e.load()` for the dirty entry, or `None`
when the key is absent.  The call `self.miss_locked(guard)` in the source
is commented out, so no miss is recorded here and the state does not
change. -/
def load_dirty_locked (s : SyncMap K V) (k : K) : Option (Option V) :=
  match s.read with
  | none => some none
  | some read =>
    if (SMap.get read.m k).isNone && read.amended then
      match s.dirty with
      | none => none
      | some dirty_map => some ((SMap.get dirty_map k).bind Entry.load)
    else
      some none

/-- Result of `SyncMap::load`: the returned value, whether the structural
(dirty) lock was acquired on the way, and the map state afterwards. -/
structure LoadResult (K V : Type) where
  value : Option V
  locked : Bool
  after : SyncMap K V
deriving DecidableEq, Repr

/-- `SyncMap::load`.  With a null read pointer the `if let` body is
skipped and the function returns `None`.  When the key is absent and the
snapshot is amended, it locks the dirty overlay (unwrapping it — a panic,
modelled by the outer `none`, if it is `None`) and delegates to
`load_dirty_locked`.  When the key is absent and not amended it returns
`None` without locking.  When the key is present, the source computes
`read.m.get(key).as_ref().unwrap().load();` but discards the result and
falls through to the final `None` — the embedding reproduces that
faithfully. -/
def load (s : SyncMap K V) (k : K) : Option (LoadResult K V) :=
  match s.read with
  | none => some { value := none, locked := false, after := s }
  | some read =>
    if (SMap.get read.m k).isNone && read.amended then
      (s.load_dirty_locked k).map (fun v => { value := v, locked := true, after := s })
    else if (SMap.get read.m k).isNone then
      some { value := none, locked := false, after := s }
    else
      some { value := none, locked := false, after := s }

/-- `SyncMap::miss_locked`: fetch-add the miss counter; if the count
after the increment is still below the dirty overlay's size, return with
only the counter bumped.  Otherwise publish a new `ReadOnly` wrapping the
taken dirty map with `amended = false`, free the old snapshot, set the
overlay to `None` and reset the counter to zero.  The source unwraps the
guarded `Option`, so a `None` overlay panics — the outer `none`. -/
def miss_locked (s : SyncMap K V) : Option (SyncMap K V) :=
  match s.dirty with
  | none => none
  | some d =>
    let num := s.misses
    if num + 1 < d.length then
      some { s with misses := num + 1 }
    else
      some { read := some { m := d, amended := false }, dirty := none, misses := 0 }

/-- States reachable from `SyncMap::new` by the operations present in
src/map.rs: `load` (for any key) and `miss_locked` (when it does not
panic). -/
inductive Reachable : SyncMap K V → Prop where
  | init : Reachable new
  | load (s : SyncMap K V) (k : K) (r : LoadResult K V) :
      Reachable s → load s k = some r → Reachable r.after
  | miss (s s' : SyncMap K V) :
      Reachable s → miss_locked s = some s' → Reachable s'

/-- `true` iff no entry of the map is in the `HardDelete` (expunged)
state. -/
def noExpunged (m : SMap K V) : Bool :=
  m.all (fun p => match p.2.state with
    | EntryState.HardDelete => false
    | _ => true)

end SyncMap

/-- Concrete map state whose published snapshot binds key 0 to a Live
entry holding 42, with an empty dirty overlay. -/
def exLive : SyncMap Nat Nat :=
  { read := some { m := [(0, Entry.new 42)], amended := false },
    dirty := some [], misses := 0 }

/-- Concrete map state whose published snapshot is empty with
`amended = true`, and whose dirty overlay holds one entry (size 1), with
the miss counter at zero. -/
def exAmended : SyncMap Nat Nat :=
  { read := some { m := [], amended := true },
    dirty := some [(0, Entry.new 7)], misses := 0 }

/-- The state of a `SyncMap::load` result is the state the load ran on:
no branch of `load` mutates the map (the `miss_locked` call is commented
out in the source). -/
theorem SyncMap.load_after_eq {K V : Type} [DecidableEq K] (s : SyncMap K V) (k : K)
    (r : SyncMap.LoadResult K V) (h : s.load k = some r) : r.after = s := by
  unfold SyncMap.load at h
  split at h
  · injection h with h
    subst h
    rfl
  · split at h
    · rcases Option.map_eq_some'.mp h with ⟨v, _, hv⟩
      subst hv
      rfl
    · split at h
      · injection h with h
        subst h
        rfl
      · injection h with h
        subst h
        rfl

/-- In every reachable state the dirty overlay is either unset or the
empty map: `new` starts it at `Some(empty)`, `load` never mutates, and
`miss_locked` on the empty overlay immediately promotes and unsets it. -/
theorem SyncMap.reachable_dirty_trivial {K V : Type} [DecidableEq K] (s : SyncMap K V)
    (hs : SyncMap.Reachable s) : s.dirty = none ∨ s.dirty = some [] := by
  induction hs with
  | init => exact Or.inr rfl
  | load s k r _ hload ih =>
      rw [SyncMap.load_after_eq s k r hload]
      exact ih
  | miss s s' _ hmiss ih =>
      rcases ih with h | h
      · unfold SyncMap.miss_locked at hmiss
        rw [h] at hmiss
        cases hmiss
      · unfold SyncMap.miss_locked at hmiss
        rw [h] at hmiss
        simp at hmiss
        exact Or.inl (by rw [← hmiss])

/-- C1: the code discards the result of `Entry::load` on the snapshot
hit path and falls through to `None`.  At the concrete state `exLive`,
key 0 is bound in the snapshot to a Live entry holding 42 (first
conjunct), yet `load` returns `None` (second conjunct), contradicting the
claim that `load` returns `Some(42)` there. -/
theorem C1_load_discards_hit :
    (SMap.get ([(0, Entry.new 42)] : SMap Nat Nat) 0).map Entry.load = some (some 42) ∧
    SyncMap.load exLive 0 = some { value := none, locked := false, after := exLive } := by
  exact ⟨rfl, rfl⟩

/-- C2: at the concrete state `exAmended` (key 1 absent from the amended
snapshot, dirty overlay of size 1, zero misses) the code acquires the
lock and re-resolves, but leaves the state — hence the miss counter and
the overlay — unchanged: the `miss_locked` call is commented out, so no
miss is recorded and promotion is never triggered, contrary to the
claim. -/
theorem C2_no_miss_recorded :
    SyncMap.load exAmended 1 = some { value := none, locked := true, after := exAmended } := by
  exact rfl

/-- C3: whenever `miss_locked` reaches the threshold (misses after the
increment not below the dirty overlay's size), the published snapshot
afterwards wraps exactly the previous overlay's contents with
`amended = false`, the overlay is `None`, and the miss counter is 0. -/
theorem C3_promotion {K V : Type} [DecidableEq K] (s : SyncMap K V) (d : SMap K V)
    (hd : s.dirty = some d) (hthr : ¬ s.misses + 1 < d.length) :
    s.miss_locked
      = some { read := some { m := d, amended := false }, dirty := none, misses := 0 } := by
  unfold SyncMap.miss_locked
  rw [hd]
  simp [hthr]

/-- Witness for C3 at a concrete state: one dirty entry, zero misses, so
the incremented count 1 reaches the size 1 and promotion runs. -/
theorem C3_promotion_witness :
    SyncMap.miss_locked
        ({ read := none, dirty := some [(0, Entry.new 5)], misses := 0 } : SyncMap Nat Nat)
      = some { read := some { m := [(0, Entry.new 5)], amended := false },
               dirty := none, misses := 0 } :=
  C3_promotion _ _ rfl (by decide)

/-- C4: when the key is absent from the published snapshot and the
snapshot is not amended, `load` returns `None` without acquiring the
structural lock (and therefore without consulting the dirty overlay), and
without mutating the map. -/
theorem C4_absent_unamended {K V : Type} [DecidableEq K] (s : SyncMap K V)
    (ro : ReadOnly K V) (k : K) (hr : s.read = some ro)
    (habs : SMap.get ro.m k = none) (ham : ro.amended = false) :
    s.load k = some { value := none, locked := false, after := s } := by
  unfold SyncMap.load
  rw [hr]
  simp [habs, ham]

/-- Witness for C4 at a concrete state: empty unamended snapshot, key 0. -/
theorem C4_absent_unamended_witness :
    SyncMap.load
        ({ read := some { m := [], amended := false }, dirty := some [], misses := 0 }
          : SyncMap Nat Nat) 0
      = some { value := none, locked := false,
               after := { read := some { m := [], amended := false },
                          dirty := some [], misses := 0 } } :=
  C4_absent_unamended _ _ 0 rfl rfl rfl

/-- C5: `try_swap v` on a Live entry holding `w` installs `v`, leaves the
entry Live, and returns `Some w`; on a SoftDeleted or Expunged entry it
leaves the entry exactly as it was and returns `Some v`. -/
theorem C5_try_swap {V : Type} (e : Entry V) (v : V) :
    (∀ w, e.state = EntryState.Present w →
        e.try_swap v = ({ state := EntryState.Present v }, some w)) ∧
    (e.state = EntryState.SoftDelete ∨ e.state = EntryState.HardDelete →
        e.try_swap v = (e, some v)) := by
  obtain ⟨st⟩ := e
  cases st <;> simp [Entry.try_swap]

/-- Witness for C5 at concrete entries. -/
theorem C5_try_swap_witness :
    Entry.try_swap (Entry.new 1) (2 : Nat) = ({ state := EntryState.Present 2 }, some 1) ∧
    Entry.try_swap ({ state := EntryState.SoftDelete } : Entry Nat) 2
      = ({ state := EntryState.SoftDelete }, some 2) :=
  ⟨(C5_try_swap (Entry.new 1) 2).1 1 rfl,
   (C5_try_swap { state := EntryState.SoftDelete } 2).2 (Or.inl rfl)⟩

/-- C6: `swap_locked v` on a Live entry holding `w` installs `v`, leaves
the entry Live and returns `Some w`; on a SoftDeleted entry it
transitions to Live holding `v` and returns `None`. -/
theorem C6_swap_locked {V : Type} (e : Entry V) (v : V) :
    (∀ w, e.state = EntryState.Present w →
        e.swap_locked v = some ({ state := EntryState.Present v }, some w)) ∧
    (e.state = EntryState.SoftDelete →
        e.swap_locked v = some ({ state := EntryState.Present v }, none)) := by
  obtain ⟨st⟩ := e
  cases st <;> simp [Entry.swap_locked]

/-- Witness for C6 at concrete entries. -/
theorem C6_swap_locked_witness :
    Entry.swap_locked (Entry.new 1) (2 : Nat)
      = some ({ state := EntryState.Present 2 }, some 1) ∧
    Entry.swap_locked ({ state := EntryState.SoftDelete } : Entry Nat) 2
      = some ({ state := EntryState.Present 2 }, none) :=
  ⟨(C6_swap_locked (Entry.new 1) 2).1 1 rfl,
   (C6_swap_locked { state := EntryState.SoftDelete } 2).2 rfl⟩

/-- C7: `swap_locked` on an Expunged entry hits the `unreachable!`
assertion and panics — modelled as `none`, it returns no value. -/
theorem C7_swap_locked_expunged {V : Type} (e : Entry V) (v : V)
    (h : e.state = EntryState.HardDelete) : e.swap_locked v = none := by
  obtain ⟨st⟩ := e
  cases st <;> simp_all [Entry.swap_locked]

/-- Witness for C7 at a concrete expunged entry. -/
theorem C7_swap_locked_expunged_witness :
    Entry.swap_locked (Entry.new_null_entry : Entry Nat) 3 = none :=
  C7_swap_locked_expunged Entry.new_null_entry 3 rfl

/-- C8: `unexpunge_locked` returns `true` iff the entry was Expunged, in
which case it is SoftDeleted afterwards; otherwise the entry is returned
unchanged with `false`. -/
theorem C8_unexpunge_locked {V : Type} (e : Entry V) :
    ((e.unexpunge_locked).2 = true ↔ e.state = EntryState.HardDelete) ∧
    (e.state = EntryState.HardDelete →
        (e.unexpunge_locked).1.state = EntryState.SoftDelete) ∧
    (e.state ≠ EntryState.HardDelete → e.unexpunge_locked = (e, false)) := by
  obtain ⟨st⟩ := e
  cases st <;> simp [Entry.unexpunge_locked]

/-- Witness for C8 at a concrete expunged entry. -/
theorem C8_unexpunge_locked_witness :
    ((Entry.new_null_entry : Entry Nat).unexpunge_locked).1.state
      = EntryState.SoftDelete :=
  (C8_unexpunge_locked Entry.new_null_entry).2.1 rfl

/-- C9 counterexample: the dirty overlay of a fresh map is not `None` —
`SyncMap::new` initialises it to `Some(HashMap::new())`. -/
theorem C9_new_dirty_not_none :
    (SyncMap.new : SyncMap Nat Nat).dirty ≠ none := by
  simp [SyncMap.new]

/-- C9 (amended): `new()` publishes no snapshot, has a zero miss counter
and a dirty overlay initialised to `Some` of the empty map (not `None`);
`load` on the fresh map returns `None` for every key, without locking and
without mutating the map. -/
theorem C9_new_state {K V : Type} [DecidableEq K] :
    (SyncMap.new : SyncMap K V).read = none ∧
    (SyncMap.new : SyncMap K V).misses = 0 ∧
    (SyncMap.new : SyncMap K V).dirty = some [] ∧
    ∀ k : K, SyncMap.load (SyncMap.new : SyncMap K V) k
      = some { value := none, locked := false, after := SyncMap.new } :=
  ⟨rfl, rfl, rfl, fun _ => rfl⟩

/-- Witness for C9 (amended) at a concrete key. -/
theorem C9_new_state_witness :
    SyncMap.load (SyncMap.new : SyncMap Nat Nat) 0
      = some { value := none, locked := false, after := SyncMap.new } :=
  (C9_new_state (K := Nat) (V := Nat)).2.2.2 0

/-- C10: in every state reachable from `new` by the map's operations, the
dirty overlay contains no Expunged (`HardDelete`) entry. -/
theorem C10_no_expunged_in_dirty {K V : Type} [DecidableEq K] (s : SyncMap K V)
    (hs : SyncMap.Reachable s) (d : SMap K V) (hd : s.dirty = some d) :
    SyncMap.noExpunged d = true := by
  rcases SyncMap.reachable_dirty_trivial s hs with h | h
  · rw [h] at hd
    cases hd
  · rw [h] at hd
    injection hd with hd
    subst hd
    rfl

/-- Witness for C10 at the initial state, whose overlay is the empty
map. -/
theorem C10_no_expunged_in_dirty_witness :
    SyncMap.noExpunged ([] : SMap Nat Nat) = true :=
  C10_no_expunged_in_dirty SyncMap.new SyncMap.Reachable.init [] rfl
